import Mathlib

/-!
Verification of the composited-card web component
(`src/composited-card.component.ts`).

The embedding below translates the component's decision logic into Lean:
the two quality lists and the quality-name lookup done at the top of
`render`, the API-payload normalization performed in
`getProtoDataFromApi`, the layer selection of `render`, the resize
handler, and the constructor-produced initial state.  JavaScript values
that may be `undefined` are modelled with `Option`; JavaScript array
indexing (which yields `undefined` out of range, including for negative
indices) is modelled by `jsIndex`; the numeric sizing arithmetic
(`* 0.01`) is modelled over exact rationals, `0.01` being the rational
`1/100`.
-/

namespace CompositedCard

/-- The `legacyQualities` array (lines 38-49 of the source): eight entries,
with the deliberate duplicate "plain" at indices 0 and 1. -/
def legacyQualities : List String :=
  ["plain", "plain", "bronze", "iron", "meteorite", "shadow", "gold", "diamond"]

/-- The `qualities` array (line 51 of the source): five entries, starting
with "diamond" and ending with "plain". -/
def qualities : List String :=
  ["diamond", "gold", "shadow", "meteorite", "plain"]

/-- JavaScript array indexing `xs[i]` for a possibly negative index `i`:
out-of-range access (negative or beyond the end) yields `undefined`,
modelled as `none`. -/
def jsIndex (xs : List String) (i : Int) : Option String :=
  if 0 ≤ i then xs[i.toNat]? else none

/-- The quality-name computation at the top of `render` (lines 215-217):
`useLegacyQualityMapping ? legacyQualities[quality] : qualities[quality - 1]`.
The result is an `Option String` because the JavaScript lookup can yield
`undefined`. -/
def resolveQualityName (quality : Int) (useLegacyQualityMapping : Bool) : Option String :=
  if useLegacyQualityMapping then jsIndex legacyQualities quality
  else jsIndex qualities (quality - 1)

/-- The `ICardProtoData` record (lines 21-34).  `attack` and `health` are
declared `number` but are initialised to `null` and, after API
normalization, hold whatever `raw.attack.Int64` evaluated to — possibly
`undefined`; both are therefore `Option Int`.  `tribe` is likewise the
possibly-`undefined` result of `raw.tribe.String`. -/
structure ICardProtoData where
  type : String
  effect : String
  name : String
  rarity : String
  god : String
  set : String
  tribe : Option String
  mana : String
  id : String
  attack : Option Int
  health : Option Int
  art_id : String
  deriving DecidableEq, Repr

/-- The initial `protoCardData` field value (lines 89-102): every string
field the empty string, `attack` and `health` `null`. -/
def emptyProtoCardData : ICardProtoData :=
  { type := ""
    effect := ""
    name := ""
    rarity := ""
    god := ""
    set := ""
    mana := ""
    id := ""
    attack := none
    health := none
    tribe := some ""
    art_id := "" }

/-- The raw API payload shape consumed by `getProtoDataFromApi`.  The
`attack`, `health` and `tribe` fields arrive wrapped in envelope objects:
the outer `Option` records whether the envelope object itself is present
(absent means the property access `raw.attack.Int64` throws a TypeError),
and the inner `Option` records whether the envelope's `Int64`/`String`
key is present (absent means the access evaluates to `undefined`). -/
structure RawProtoPayload where
  id : String
  type : String
  attack : Option (Option Int)
  health : Option (Option Int)
  effect : String
  name : String
  rarity : String
  god : String
  mana : String
  set : String
  tribe : Option (Option String)
  art_id : String
  deriving DecidableEq, Repr

/-- A JavaScript runtime error: here only the TypeError raised by
accessing a property of `undefined`/`null`, tagged with the field whose
envelope was missing. -/
inductive JsError where
  | typeError : String → JsError
  deriving DecidableEq, Repr

/-- The body of the `.then` callback of `getProtoDataFromApi`
(lines 166-194): destructure the payload and build the new
`protoCardData` record, unwrapping `attack.Int64`, `health.Int64` and
`tribe.String`.  A missing envelope object makes the corresponding
property access throw (the object literal is evaluated field by field in
source order: `attack` before `health` before `tribe`); a present
envelope with a missing inner key just evaluates to `undefined`. -/
def normalizeApi (raw : RawProtoPayload) : Except JsError ICardProtoData :=
  match raw.attack with
  | none => Except.error (JsError.typeError "attack")
  | some a =>
    match raw.health with
    | none => Except.error (JsError.typeError "health")
    | some h =>
      match raw.tribe with
      | none => Except.error (JsError.typeError "tribe")
      | some t =>
        Except.ok
          { id := raw.id
            type := raw.type
            attack := a
            health := h
            effect := raw.effect
            name := raw.name
            rarity := raw.rarity
            god := raw.god
            mana := raw.mana
            set := raw.set
            tribe := t
            art_id := raw.art_id }

/-- The component state the claims depend on: the reactive properties,
the stored proto data, the two size units `ch`/`cw`, the `loading` flag,
and a counter of `requestUpdate` calls (re-render requests). -/
structure CardState where
  protoId : Option Int
  quality : Int
  useLegacyQualityMapping : Bool
  responsiveSrcsetSizes : Option String
  protoCardData : ICardProtoData
  ch : Rat
  cw : Rat
  loading : Bool
  pendingRenders : Nat
  deriving DecidableEq

/-- The declared per-property default of `quality` (line 84: `= 5`). -/
def qualityDeclaredDefault : Int := 5

/-- The state produced by the constructor (lines 111-117): `loading` set
to true, `quality` unconditionally overwritten to 0, `ch`/`cw` computed
from the pre-layout offset sizes (0).  The other property defaults
(`useLegacyQualityMapping = false`, no `protoId`, no
`responsiveSrcsetSizes`) and the initial `protoCardData` literal remain. -/
def initState : CardState :=
  { protoId := none
    quality := 0
    useLegacyQualityMapping := false
    responsiveSrcsetSizes := none
    protoCardData := emptyProtoCardData
    ch := 0
    cw := 0
    loading := true
    pendingRenders := 0 }

/-- One visual layer descriptor emitted by `render`, with exactly the
parameters each template call receives (lines 219-246). -/
inductive Layer where
  | loadingPlaceholder : Layer
  | baseArtwork (id : String) (responsiveSrcsetSizes : Option String) : Layer
  | mythicOverlay (responsiveSrcsetSizes : Option String)
      (data : ICardProtoData) : Layer
  | nonMythicOverlay (qualityName : Option String)
      (responsiveSrcsetSizes : Option String) (data : ICardProtoData) : Layer
  | textLayer (ch : Rat) (cw : Rat) (data : ICardProtoData)
      (cardSet : String) : Layer
  deriving DecidableEq

/-- The layer-selection logic of `render` (lines 214-246): compute the
quality name, branch on `loading`, then on `rarity === "mythic"`, and
emit the ordered layer stack handed to the template collaborator. -/
def selectLayers (s : CardState) : List Layer :=
  let qualityName := resolveQualityName s.quality s.useLegacyQualityMapping
  let isMythicCard := s.protoCardData.rarity == "mythic"
  if s.loading then
    [Layer.loadingPlaceholder]
  else
    [Layer.baseArtwork s.protoCardData.id s.responsiveSrcsetSizes]
      ++ (if isMythicCard then
            [Layer.mythicOverlay s.responsiveSrcsetSizes s.protoCardData]
          else
            [Layer.nonMythicOverlay qualityName s.responsiveSrcsetSizes
              s.protoCardData])
      ++ [Layer.textLayer s.ch s.cw s.protoCardData s.protoCardData.set]

/-- The identifier-change path up to the network call: `fetchProtoData`
sets `loading = true` and issues the request for the current `protoId`
(lines 153-158, triggered from `updated`, lines 130-138). -/
def requestFetch (s : CardState) (pid : Int) : CardState :=
  { s with protoId := some pid, loading := true }

/-- What happens when a fetch for this component resolves with payload
`raw` (the `.then` callback of `getProtoDataFromApi`, lines 166-198):
the callback unconditionally stores the normalized record, clears
`loading` and requests a re-render.  There is no check that the
resolving request is still the current one.  If normalization throws,
the assignment never happens and the state is unchanged (the exception
escapes as an unhandled rejection). -/
def applyFetchResult (s : CardState) (raw : RawProtoPayload) : CardState :=
  match normalizeApi raw with
  | Except.ok d =>
      { s with
        protoCardData := d
        loading := false
        pendingRenders := s.pendingRenders + 1 }
  | Except.error _ => s

/-- One resize notification: the observed container's offset height and
width, as delivered to `handleResize`. -/
structure ResizeEvent where
  offsetHeight : Rat
  offsetWidth : Rat
  deriving DecidableEq

/-- The resize handler `handleResize` (lines 143-148): set `ch` to 1% of
the observed height, `cw` to 1% of the observed width, and request one
re-render. -/
def handleResize (s : CardState) (e : ResizeEvent) : CardState :=
  { s with
    ch := e.offsetHeight * (1 / 100)
    cw := e.offsetWidth * (1 / 100)
    pendingRenders := s.pendingRenders + 1 }

/-- Process a sequence of resize notifications in arrival order. -/
def runResizes (s : CardState) (es : List ResizeEvent) : CardState :=
  es.foldl handleResize s

/-- The pair of size units held after a resize notification. -/
structure SizeUnits where
  ch : Rat
  cw : Rat
  deriving DecidableEq, Repr

/-- The sequence of `{ch, cw}` values observed after each successive
resize notification, in processing order. -/
def sizeUnitsTrace (s : CardState) : List ResizeEvent → List SizeUnits
  | [] => []
  | e :: rest =>
    let s2 := handleResize s e
    { ch := s2.ch, cw := s2.cw } :: sizeUnitsTrace s2 rest

/-- A payload whose `attack` envelope object is present but lacks the
`Int64` key, with every other field well-formed. -/
def rawMissingInt64 : RawProtoPayload :=
  { id := "99"
    type := "creature"
    attack := some none
    health := some (some 3)
    effect := "none"
    name := "test card"
    rarity := "common"
    god := "nature"
    mana := "2"
    set := "core"
    tribe := some (some "beast")
    art_id := "99a" }

/-- A payload whose `attack` envelope object is entirely absent. -/
def rawAttackAbsent : RawProtoPayload :=
  { id := "98"
    type := "creature"
    attack := none
    health := some (some 3)
    effect := "none"
    name := "test card"
    rarity := "common"
    god := "nature"
    mana := "2"
    set := "core"
    tribe := some (some "beast")
    art_id := "98a" }

/-- The well-formed example payload from the specification:
`{attack: {Int64: 5}, health: {Int64: 3}, tribe: {String: "beast"}, ...}`. -/
def rawExample : RawProtoPayload :=
  { id := "101"
    type := "creature"
    attack := some (some 5)
    health := some (some 3)
    effect := "Roar"
    name := "Example"
    rarity := "rare"
    god := "war"
    mana := "4"
    set := "core"
    tribe := some (some "beast")
    art_id := "101a" }

/-- A well-formed payload used as the earlier request A in the
stale-fetch scenario. -/
def rawCardA : RawProtoPayload :=
  { id := "1"
    type := "creature"
    attack := some (some 1)
    health := some (some 1)
    effect := ""
    name := "cardA"
    rarity := "common"
    god := "light"
    mana := "1"
    set := "core"
    tribe := some (some "")
    art_id := "1a" }

/-- A well-formed payload used as the later request B in the stale-fetch
scenario. -/
def rawCardB : RawProtoPayload :=
  { id := "2"
    type := "creature"
    attack := some (some 2)
    health := some (some 2)
    effect := ""
    name := "cardB"
    rarity := "common"
    god := "death"
    mana := "2"
    set := "core"
    tribe := some (some "")
    art_id := "2a" }

/-- Claim C1, counterexample: with legacy mode off, quality 1 resolves to
"diamond", not "plain" as the claim states, and quality 5 resolves to
"plain", not "diamond" — the claim's two example values are swapped
(`qualities` starts with "diamond" and ends with "plain"). -/
theorem quality_one_nonlegacy_is_diamond_not_plain :
    resolveQualityName 1 false = some "diamond" ∧
    resolveQualityName 1 false ≠ some "plain" ∧
    resolveQualityName 5 false = some "plain" ∧
    resolveQualityName 5 false ≠ some "diamond" := by
  refine ⟨by decide, by decide, by decide, by decide⟩

/-- Claim C1, amended: for every quality q in [1,5] with legacy mode off,
the quality name resolved at render time equals `qualities[q-1]`; in
particular quality 1 resolves to "diamond" (the first entry) and quality
5 to "plain" (the last entry). -/
theorem nonlegacy_quality_lookup (q : Int) (h1 : 1 ≤ q) (h5 : q ≤ 5) :
    resolveQualityName q false = some (qualities.getD (q - 1).toNat "") ∧
    resolveQualityName 1 false = some "diamond" ∧
    resolveQualityName 5 false = some "plain" := by
  refine ⟨?_, by decide, by decide⟩
  interval_cases q <;> decide

/-- Claim C1, witness: the amended lookup theorem instantiated at
quality 3, whose name is "shadow". -/
theorem nonlegacy_quality_lookup_witness :
    (1 : Int) ≤ 3 ∧ (3 : Int) ≤ 5 ∧
    (resolveQualityName 3 false = some (qualities.getD ((3 : Int) - 1).toNat "") ∧
      resolveQualityName 1 false = some "diamond" ∧
      resolveQualityName 5 false = some "plain") :=
  ⟨by decide, by decide, nonlegacy_quality_lookup 3 (by decide) (by decide)⟩

/-- Claim C2, counterexample: resolving quality 0 with legacy mode off
reads `qualities[-1]`, which is `undefined` — no error is raised and no
clamp to a valid index happens (the result is not any entry of
`qualities`); the out-of-range read is entirely silent. -/
theorem quality_zero_nonlegacy_silent_undefined :
    resolveQualityName 0 false = none ∧
    resolveQualityName 0 false ∉ qualities.map some := by
  refine ⟨by decide, by decide⟩

/-- Claim C2, amended: for every quality q ≤ 0 with legacy mode off, the
render-time lookup silently reads index q-1 before the array start and
yields `undefined` (`none`); there is no `InvalidQualityIndex` error, no
clamp, and no guard in the implementation. -/
theorem nonpositive_quality_nonlegacy_undefined (q : Int) (h : q ≤ 0) :
    resolveQualityName q false = none := by
  have h2 : ¬ (0 ≤ q - 1) := by omega
  simp [resolveQualityName, jsIndex, h2]

/-- Claim C2, witness: the amended theorem instantiated at quality 0. -/
theorem nonpositive_quality_nonlegacy_undefined_witness :
    (0 : Int) ≤ 0 ∧ resolveQualityName 0 false = none :=
  ⟨by decide, nonpositive_quality_nonlegacy_undefined 0 (by decide)⟩

/-- Claim C8: for every quality q in [0,7] with legacy mode on, the
resolved quality name equals `legacyQualities[q]`, and qualities 0 and 1
both resolve to "plain" (the deliberate duplicate at indices 0 and 1). -/
theorem legacy_quality_lookup (q : Int) (h0 : 0 ≤ q) (h7 : q ≤ 7) :
    resolveQualityName q true = some (legacyQualities.getD q.toNat "") ∧
    resolveQualityName 0 true = some "plain" ∧
    resolveQualityName 1 true = some "plain" := by
  refine ⟨?_, by decide, by decide⟩
  interval_cases q <;> decide

/-- Claim C8, witness: the legacy lookup theorem instantiated at
quality 7, whose name is "diamond". -/
theorem legacy_quality_lookup_witness :
    (0 : Int) ≤ 7 ∧ (7 : Int) ≤ 7 ∧
    (resolveQualityName 7 true = some (legacyQualities.getD (7 : Int).toNat "") ∧
      resolveQualityName 0 true = some "plain" ∧
      resolveQualityName 1 true = some "plain") :=
  ⟨by decide, by decide, legacy_quality_lookup 7 (by decide) (by decide)⟩

/-- Claim C3, counterexample: normalizing a payload whose `attack`
envelope is present but lacks the `Int64` key raises no error at all —
it succeeds and silently stores `undefined` for `attack`. -/
theorem missing_int64_stored_silently :
    normalizeApi rawMissingInt64 = Except.ok
      { id := "99"
        type := "creature"
        attack := none
        health := some 3
        effect := "none"
        name := "test card"
        rarity := "common"
        god := "nature"
        mana := "2"
        set := "core"
        tribe := some "beast"
        art_id := "99a" } := by
  rfl

/-- Claim C3, amended: when the `attack`, `health` or `tribe` envelope
object itself is absent, normalization throws a TypeError from the
property access (an uncaught exception, not a `MalformedPayload` error);
when the envelope object is present but its `Int64`/`String` key is
absent, normalization succeeds and silently stores `undefined`. -/
theorem normalizeApi_envelope_behavior (raw : RawProtoPayload) :
    (raw.attack = none →
      normalizeApi raw = Except.error (JsError.typeError "attack")) ∧
    (∀ a, raw.attack = some a → raw.health = none →
      normalizeApi raw = Except.error (JsError.typeError "health")) ∧
    (∀ a h, raw.attack = some a → raw.health = some h → raw.tribe = none →
      normalizeApi raw = Except.error (JsError.typeError "tribe")) ∧
    (∀ a h t, raw.attack = some a → raw.health = some h → raw.tribe = some t →
      normalizeApi raw = Except.ok
        { id := raw.id
          type := raw.type
          attack := a
          health := h
          effect := raw.effect
          name := raw.name
          rarity := raw.rarity
          god := raw.god
          mana := raw.mana
          set := raw.set
          tribe := t
          art_id := raw.art_id }) := by
  refine ⟨fun ha => ?_, fun a ha hh => ?_, fun a h ha hh ht => ?_,
    fun a h t ha hh ht => ?_⟩ <;>
    simp [normalizeApi, ha]
  · simp [hh]
  · simp [hh, ht]
  · simp [hh, ht]

/-- Claim C3, witness: the amended theorem instantiated at a payload
with no `attack` envelope (first conjunct) and at a payload whose
`attack` envelope lacks `Int64` (last conjunct, storing `undefined`). -/
theorem normalizeApi_envelope_behavior_witness :
    rawAttackAbsent.attack = none ∧
    normalizeApi rawAttackAbsent = Except.error (JsError.typeError "attack") :=
  ⟨rfl, (normalizeApi_envelope_behavior rawAttackAbsent).1 rfl⟩

/-- The record that normalizing `rawCardA` produces. -/
def protoDataA : ICardProtoData :=
  { id := "1"
    type := "creature"
    attack := some 1
    health := some 1
    effect := ""
    name := "cardA"
    rarity := "common"
    god := "light"
    mana := "1"
    set := "core"
    tribe := some ""
    art_id := "1a" }

/-- Claim C4, counterexample: request A (protoId 1) then request B
(protoId 2); B's fetch resolves first, then A's stale fetch resolves.
The stored card data afterwards is A's ("cardA"), not B's — the late
stale result is applied unconditionally and overwrites the newer
request's data. -/
theorem stale_fetch_result_overwrites_newer :
    (applyFetchResult
        (applyFetchResult (requestFetch (requestFetch initState 1) 2) rawCardB)
        rawCardA).protoCardData.name = "cardA" ∧
    (applyFetchResult
        (applyFetchResult (requestFetch (requestFetch initState 1) 2) rawCardB)
        rawCardA).protoCardData.name ≠ "cardB" := by
  refine ⟨by decide, by decide⟩

/-- Claim C4, amended: the fetch-resolution callback has no staleness
check, so whichever fetch resolves last wins: from any state, after a
fetch resolves with payload b and then another resolves with payload a
that normalizes to record da, the stored data is da (and `loading` is
cleared). -/
theorem last_resolved_fetch_wins (s : CardState) (a b : RawProtoPayload)
    (da : ICardProtoData) (ha : normalizeApi a = Except.ok da) :
    (applyFetchResult (applyFetchResult s b) a).protoCardData = da ∧
    (applyFetchResult (applyFetchResult s b) a).loading = false := by
  constructor <;> simp [applyFetchResult, ha]

/-- Claim C4, witness: the amended theorem instantiated with the
concrete payloads of the counterexample scenario. -/
theorem last_resolved_fetch_wins_witness :
    normalizeApi rawCardA = Except.ok protoDataA ∧
    ((applyFetchResult (applyFetchResult initState rawCardB) rawCardA).protoCardData
        = protoDataA ∧
      (applyFetchResult (applyFetchResult initState rawCardB) rawCardA).loading
        = false) :=
  ⟨rfl, last_resolved_fetch_wins initState rawCardA rawCardB protoDataA rfl⟩

/-- Claim C7: for every well-formed raw payload (all three envelopes
present with their inner keys), API-mode normalization yields exactly the
record whose `attack`/`health` are the payload's `Int64` values, whose
`tribe` is the payload's `String` value, and whose other nine fields are
copied verbatim. -/
theorem normalizeApi_wellformed (raw : RawProtoPayload) (a h : Int)
    (t : String) (ha : raw.attack = some (some a))
    (hh : raw.health = some (some h)) (ht : raw.tribe = some (some t)) :
    normalizeApi raw = Except.ok
      { id := raw.id
        type := raw.type
        attack := some a
        health := some h
        effect := raw.effect
        name := raw.name
        rarity := raw.rarity
        god := raw.god
        mana := raw.mana
        set := raw.set
        tribe := some t
        art_id := raw.art_id } := by
  simp [normalizeApi, ha, hh, ht]

/-- Claim C7, witness: normalizing the specification's example payload
`{attack: {Int64: 5}, health: {Int64: 3}, tribe: {String: "beast"}, ...}`
yields `{attack: 5, health: 3, tribe: "beast", ...}` exactly. -/
theorem normalizeApi_wellformed_witness :
    rawExample.attack = some (some 5) ∧
    rawExample.health = some (some 3) ∧
    rawExample.tribe = some (some "beast") ∧
    normalizeApi rawExample = Except.ok
      { id := "101"
        type := "creature"
        attack := some 5
        health := some 3
        effect := "Roar"
        name := "Example"
        rarity := "rare"
        god := "war"
        mana := "4"
        set := "core"
        tribe := some "beast"
        art_id := "101a" } :=
  ⟨rfl, rfl, rfl, normalizeApi_wellformed rawExample 5 3 "beast" rfl rfl rfl⟩

/-- A loaded state holding a mythic card, used to instantiate the layer
selection theorems. -/
def mythicState : CardState :=
  { initState with
    loading := false
    quality := 5
    protoCardData := { emptyProtoCardData with rarity := "mythic" } }

/-- A loaded state holding a card of a non-mythic rarity, used to
instantiate the layer selection theorems. -/
def plainRarityState : CardState :=
  { initState with
    loading := false
    quality := 5
    protoCardData := { emptyProtoCardData with rarity := "common" } }

/-- Claim C5: whenever `loading` is true, `render` emits exactly the one
loading-placeholder layer, independent of the card data, quality,
quality-mapping flag and size units held in the rest of the state. -/
theorem loading_renders_single_placeholder (s : CardState)
    (h : s.loading = true) :
    selectLayers s = [Layer.loadingPlaceholder] := by
  simp [selectLayers, h]

/-- Claim C5, witness: the freshly constructed state is loading and
renders only the placeholder. -/
theorem loading_renders_single_placeholder_witness :
    initState.loading = true ∧
    selectLayers initState = [Layer.loadingPlaceholder] :=
  ⟨rfl, loading_renders_single_placeholder initState rfl⟩

/-- Claim C6: whenever `loading` is false, `render` emits exactly three
layers: for rarity "mythic" the ordered stack [base-artwork,
mythic-overlay, text]; for any other rarity the ordered stack
[base-artwork, non-mythic-overlay parameterized by the resolved quality
name, text]. -/
theorem nonloading_renders_three_layers (s : CardState)
    (h : s.loading = false) :
    (s.protoCardData.rarity = "mythic" →
      selectLayers s =
        [Layer.baseArtwork s.protoCardData.id s.responsiveSrcsetSizes,
          Layer.mythicOverlay s.responsiveSrcsetSizes s.protoCardData,
          Layer.textLayer s.ch s.cw s.protoCardData s.protoCardData.set]) ∧
    (s.protoCardData.rarity ≠ "mythic" →
      selectLayers s =
        [Layer.baseArtwork s.protoCardData.id s.responsiveSrcsetSizes,
          Layer.nonMythicOverlay
            (resolveQualityName s.quality s.useLegacyQualityMapping)
            s.responsiveSrcsetSizes s.protoCardData,
          Layer.textLayer s.ch s.cw s.protoCardData s.protoCardData.set]) := by
  constructor <;> intro hr <;> simp [selectLayers, h, hr]

/-- Claim C6, witness: the theorem instantiated at a loaded mythic state
and at a loaded common-rarity state. -/
theorem nonloading_renders_three_layers_witness :
    (mythicState.protoCardData.rarity = "mythic" ∧
      selectLayers mythicState =
        [Layer.baseArtwork mythicState.protoCardData.id
            mythicState.responsiveSrcsetSizes,
          Layer.mythicOverlay mythicState.responsiveSrcsetSizes
            mythicState.protoCardData,
          Layer.textLayer mythicState.ch mythicState.cw
            mythicState.protoCardData mythicState.protoCardData.set]) ∧
    (plainRarityState.protoCardData.rarity ≠ "mythic" ∧
      selectLayers plainRarityState =
        [Layer.baseArtwork plainRarityState.protoCardData.id
            plainRarityState.responsiveSrcsetSizes,
          Layer.nonMythicOverlay
            (resolveQualityName plainRarityState.quality
              plainRarityState.useLegacyQualityMapping)
            plainRarityState.responsiveSrcsetSizes
            plainRarityState.protoCardData,
          Layer.textLayer plainRarityState.ch plainRarityState.cw
            plainRarityState.protoCardData
            plainRarityState.protoCardData.set]) :=
  ⟨⟨rfl, (nonloading_renders_three_layers mythicState rfl).1 rfl⟩,
    ⟨by decide, (nonloading_renders_three_layers plainRarityState rfl).2
      (by decide)⟩⟩

/-- Claim C9: resize notifications are processed in arrival order, each
one setting `ch` to 1% of the observed height and `cw` to 1% of the
observed width and requesting exactly one re-render (so none are dropped
or reordered); in particular the sequence [{h:200,w:100}, {h:400,w:300}]
yields the size-unit sequence [{ch:2,cw:1}, {ch:4,cw:3}]. -/
theorem resize_notifications_in_order (s : CardState)
    (es : List ResizeEvent) :
    sizeUnitsTrace s es =
      es.map (fun e =>
        { ch := e.offsetHeight * (1 / 100)
          cw := e.offsetWidth * (1 / 100) }) ∧
    (runResizes s es).pendingRenders = s.pendingRenders + es.length ∧
    sizeUnitsTrace initState
        [{ offsetHeight := 200, offsetWidth := 100 },
          { offsetHeight := 400, offsetWidth := 300 }] =
      [{ ch := 2, cw := 1 }, { ch := 4, cw := 3 }] := by
  refine ⟨?_, ?_, by simp [sizeUnitsTrace, handleResize]; norm_num⟩
  · induction es generalizing s with
    | nil => rfl
    | cons e rest ih => simp [sizeUnitsTrace, handleResize, ih]
  · induction es generalizing s with
    | nil => rfl
    | cons e rest ih =>
        have h2 := ih (handleResize s e)
        simp only [runResizes, List.foldl] at h2 ⊢
        rw [h2]
        simp [handleResize]
        omega

/-- Claim C10: the constructor leaves the component with `loading = true`
and `quality = 0`, unconditionally overwriting the declared per-property
default of 5; with the default `useLegacyQualityMapping = false` the
quality name then resolves to `qualities[-1]`, i.e. `undefined`, so the
first non-loading render emits a non-mythic overlay with an undefined
quality name. -/
theorem constructor_overrides_quality_default :
    qualityDeclaredDefault = 5 ∧
    initState.quality = 0 ∧
    initState.loading = true ∧
    initState.useLegacyQualityMapping = false ∧
    resolveQualityName initState.quality initState.useLegacyQualityMapping
      = none ∧
    selectLayers { initState with loading := false } =
      [Layer.baseArtwork "" none,
        Layer.nonMythicOverlay none none emptyProtoCardData,
        Layer.textLayer 0 0 emptyProtoCardData ""] := by
  refine ⟨rfl, rfl, rfl, rfl, by decide, by decide⟩

end CompositedCard
